import Mathlib

/-!
Verification development for the music-importer repository.

The Go source is shallowly embedded: pure string manipulation becomes Lean
functions on `String` / `List Char`, subprocess and network results become
explicit oracle parameters (`Except String _` for fallible calls), `float64`
values become `ℚ`, and the side effects of the orchestrator become an explicit
event trace. A Go function that can panic is embedded with result type
`Option _`, where `none` is the panic.
-/

/-- Embeds the Go struct `MusicMetadata` from lrc.go. -/
structure MusicMetadata where
  artist : String
  album : String
  title : String
deriving DecidableEq, Repr

/-- Embeds the Go struct `LRCLibResponse` (fields syncedLyrics, plainLyrics). -/
structure LRCLibResponse where
  syncedLyrics : String
  plainLyrics : String
deriving DecidableEq, Repr

/-! ## Sanitizer (lrc.go `sanitize`)

The Go code builds `strings.NewReplacer("/", "_", "\\", "_", ":", "-",
"?", "", "*", "", "\"", "", "<", "", ">", "", "|", "")` and applies it.
Every pattern is a single character, so the replacer is exactly a
character-by-character substitution. -/

/-- Substitution for one character, per the replacer table in `sanitize`. -/
def sanitizeChar (c : Char) : List Char :=
  if c = '/' then ['_']
  else if c = '\\' then ['_']
  else if c = ':' then ['-']
  else if c = '?' then []
  else if c = '*' then []
  else if c = '\"' then []
  else if c = '<' then []
  else if c = '>' then []
  else if c = '|' then []
  else [c]

/-- The replacer applied along a character list. -/
def sanitizeChars : List Char → List Char
  | [] => []
  | c :: cs => sanitizeChar c ++ sanitizeChars cs

/-- Embeds lrc.go `sanitize`: remove filesystem-unsafe characters. -/
def sanitize (s : String) : String :=
  ⟨sanitizeChars s.data⟩

/-- The nine characters the replacer table of `sanitize` rewrites. -/
def isUnsafeChar (c : Char) : Bool :=
  c == '/' || c == '\\' || c == ':' || c == '?' || c == '*' || c == '\"' ||
    c == '<' || c == '>' || c == '|'

/-! ## Duration probe (lrc.go `TrackDuration`)

`TrackDuration` runs ffprobe, trims its stdout, fails on run error, empty
output or unparsable output, and otherwise returns `int(flt + 0.5)`.
The probe outcome is the oracle input: `Except.error` covers the three
error paths (all of which `return 0, err` in Go), `Except.ok q` is a
successfully parsed float, modelled as a rational. Go `int(x)` conversion
truncates toward zero. -/

/-- Go float-to-int conversion: truncation toward zero. -/
def truncTowardZero (q : ℚ) : ℤ :=
  if 0 ≤ q then ⌊q⌋ else ⌈q⌉

/-- Embeds lrc.go `TrackDuration`. Returns the Go pair (value, error):
error paths return `(0, some e)`, success returns `int(flt + 0.5)` with
no error. -/
def TrackDuration (probe : Except String ℚ) : ℤ × Option String :=
  match probe with
  | .error e => (0, some e)
  | .ok flt => (truncTowardZero (flt + 1/2), none)

/-! ## MusicBrainz fallback (lrc.go `fetchMusicBrainzInfo`)

The anonymous JSON shape decoded from the MusicBrainz response. Only the
fields the Go code decodes are modelled. -/

/-- One artist-credit entry of a release. -/
structure MBArtistCredit where
  name : String
deriving DecidableEq, Repr

/-- One release of a recording. -/
structure MBRelease where
  title : String
  artistCredit : List MBArtistCredit
deriving DecidableEq, Repr

/-- One recording candidate. -/
structure MBRecording where
  title : String
  releases : List MBRelease
deriving DecidableEq, Repr

/-- The decoded MusicBrainz response body. -/
structure MBResponse where
  recordings : List MBRecording
deriving DecidableEq, Repr

/-- Embeds the body of lrc.go `fetchMusicBrainzInfo` after a successful curl
and JSON decode. The Go code checks `len(Recordings) == 0 ||
len(Recordings[0].Releases) == 0` and errors; otherwise it indexes
`rel.ArtistCredit[0]` with no length check, which panics (out-of-bounds) on
an empty artist-credit list. The panic is the `none` result. -/
def fetchMusicBrainzInfo (data : MBResponse) : Option (Except String MusicMetadata) :=
  match data.recordings with
  | [] => some (.error "no MusicBrainz match")
  | r :: _ =>
    match r.releases with
    | [] => some (.error "no MusicBrainz match")
    | rel :: _ =>
      match rel.artistCredit with
      | [] => none
      | a :: _ => some (.ok ⟨a.name, rel.title, r.title⟩)

/-- The curl invocation plus JSON decode feeding `fetchMusicBrainzInfo`:
`Except.error` covers a curl failure or an undecodable body. -/
def fetchMusicBrainzInfoFromCurl (resp : Except String MBResponse) :
    Option (Except String MusicMetadata) :=
  match resp with
  | .error e => some (.error e)
  | .ok data => fetchMusicBrainzInfo data

/-- Embeds lrc.go `getAlbumMetadata`. `tagRead` is the result of `readTags`
on the representative track after the beets tagging attempt (whose own
failure is only logged, so it is not a parameter); `mb` is the curl and
decode outcome of the MusicBrainz fallback. The second component of the
result records whether the MusicBrainz fallback was queried. `none` is a
panic inside the fallback. -/
def getAlbumMetadata (tagRead : Except String MusicMetadata)
    (mb : Except String MBResponse) :
    Option (Except String MusicMetadata) × Bool :=
  match tagRead with
  | .ok md =>
    if md.artist ≠ "" ∧ md.album ≠ "" then (some (.ok md), false)
    else
      (match fetchMusicBrainzInfoFromCurl mb with
       | none => none
       | some (.error e) => some (.error ("metadata lookup failed: " ++ e))
       | some (.ok md2) => some (.ok md2), true)
  | .error _ =>
    (match fetchMusicBrainzInfoFromCurl mb with
     | none => none
     | some (.error e) => some (.error ("metadata lookup failed: " ++ e))
     | some (.ok md2) => some (.ok md2), true)

/-- The metadata the MusicBrainz fallback would produce, when it returns
normally with success; used to state that `getAlbumMetadata` never merges
fields from two sources. -/
def mbMetadata (mb : Except String MBResponse) : Option MusicMetadata :=
  match fetchMusicBrainzInfoFromCurl mb with
  | some (.ok md) => some md
  | _ => none

/-! ## Lyrics fetch (lrc.go `plainToLRC`, `fetchLRCLibLyrics`) -/

/-- Go `unicode.IsSpace` restricted to the ASCII whitespace characters. -/
def isSpaceChar (c : Char) : Bool :=
  c = ' ' ∨ c = '\t' ∨ c = '\n' ∨ c = '\x0b' ∨ c = '\x0c' ∨ c = '\r'

/-- Go `strings.TrimSpace` on a character list. -/
def trimSpace (cs : List Char) : List Char :=
  ((cs.dropWhile isSpaceChar).reverse.dropWhile isSpaceChar).reverse

/-- Go `strings.Split` with a newline separator, on a character list. -/
def splitLines : List Char → List (List Char)
  | [] => [[]]
  | c :: cs =>
    if c = '\n' then [] :: splitLines cs
    else
      match splitLines cs with
      | [] => [[c]]
      | l :: ls => (c :: l) :: ls

/-- Embeds lrc.go `plainToLRC`: split on newline, prefix each line with the
zero timestamp, trimming surrounding whitespace from the line (Go
`strings.TrimSpace`), and append a newline. -/
def plainToLRC (plain : String) : String :=
  ⟨((splitLines plain.data).map
      (fun line => "[00:00.00] ".data ++ trimSpace line ++ ['\n'])).flatten⟩

/-- Embeds lrc.go `fetchLRCLibLyrics`. `resp` is the oracle for the HTTP GET:
`Except.error` covers a transport error, a non-200 status, a body read
failure or a JSON decode failure; `Except.ok` carries the decoded
`LRCLibResponse`. -/
def fetchLRCLibLyrics (resp : Except String LRCLibResponse) : Except String String :=
  match resp with
  | .error e => .error e
  | .ok out =>
    if out.syncedLyrics ≠ "" then .ok out.syncedLyrics
    else if out.plainLyrics ≠ "" then .ok (plainToLRC out.plainLyrics)
    else .error "no lyrics found"

/-! ## Side-effect traces

Observable external actions of the pipeline, used to state which calls a
run performs. -/

/-- One observable external action. -/
inductive Event where
  | beetsTag (dir : String)
  | mbQuery (file : String)
  | replayGain (dir : String)
  | embedArt (dir : String)
  | moveTrack (src dstDir : String)
  | moveCover (src dstDir : String)
  | removeDir (dir : String)
  | lyricsQuery (artist title album : String) (duration : ℤ)
  | writeSidecar (content : String)
deriving DecidableEq, Repr

/-- Whether an event belongs to the lyrics-acquisition step (the LRCLIB
network query or the sidecar write). -/
def Event.isLyrics : Event → Bool
  | .lyricsQuery _ _ _ _ => true
  | .writeSidecar _ => true
  | _ => false

/-- Whether an event is a track move into the library. -/
def Event.isMoveTrack : Event → Bool
  | .moveTrack _ _ => true
  | _ => false

/-! ## Per-track lyrics step (lrc.go `DownloadAlbumLyrics` walk body)

The body of the `filepath.Walk` callback for one audio file (extension
.mp3 or .flac). Oracles: `sidecar` is the current content of the sidecar
.lrc file (`none` if `os.Stat` fails, i.e. it does not exist), `tagRead`
the `readTags` outcome, `probe` the ffprobe outcome feeding
`TrackDuration`, `resp` the LRCLIB outcome, `writeOk` the `os.WriteFile`
outcome. Returns the callback result, the trace, and the sidecar content
afterwards. -/

/-- One audio-file iteration of lrc.go `DownloadAlbumLyrics`. -/
def downloadTrackLyrics (sidecar : Option String)
    (tagRead : Except String MusicMetadata) (probe : Except String ℚ)
    (resp : Except String LRCLibResponse) (writeOk : Bool) :
    Except String Unit × List Event × Option String :=
  match sidecar with
  | some content => (.ok (), [], some content)
  | none =>
    match tagRead with
    | .error _ => (.ok (), [], none)
    | .ok md =>
      if md.title = "" ∨ md.artist = "" ∨ md.album = "" then (.ok (), [], none)
      else
        let duration := (TrackDuration probe).1
        let queryEv := Event.lyricsQuery md.artist md.title md.album duration
        match fetchLRCLibLyrics resp with
        | .error _ => (.ok (), [queryEv], none)
        | .ok lyrics =>
          if writeOk then (.ok (), [queryEv, Event.writeSidecar lyrics], some lyrics)
          else (.error "writing lrc file", [queryEv], none)

/-! ## Cover embedding (media package, `EmbedAlbumArtIntoFolder`)

`filepath.Walk` applies `embedCoverMP3` / `embedCoverFLAC` to each audio
file in order and aborts the walk as soon as a callback returns an error.
The per-track embed outcomes are oracles (`trackEmbeds`, in walk order;
non-audio files return nil and are omitted). The second result component
counts how many tracks an embed was attempted on. -/

/-- The walk over per-track embed outcomes: stops at the first error. -/
def walkEmbed : List (Except String Unit) → Except String Unit × ℕ
  | [] => (.ok (), 0)
  | r :: rest =>
    match r with
    | .error e => (.error e, 1)
    | .ok _ =>
      let res := walkEmbed rest
      (res.1, res.2 + 1)

/-- Embeds media `EmbedAlbumArtIntoFolder`. `cover` is the
`FindCoverImage` result (`none`: no cover, print and return nil),
`coverRead` the `os.ReadFile` outcome on the cover. -/
def EmbedAlbumArtIntoFolder (cover : Option String)
    (coverRead : Except String Unit)
    (trackEmbeds : List (Except String Unit)) : Except String Unit × ℕ :=
  match cover with
  | none => (.ok (), 0)
  | some _ =>
    match coverRead with
    | .error e => (.error ("failed to read cover image: " ++ e), 0)
    | .ok _ => walkEmbed trackEmbeds

/-! ## Orchestrator (lrc.go `RunImporter`)

One `AlbumEnv` bundles the oracles for one entry of the import root.
`processAlbum` is the loop body of `RunImporter`; the result is the trace
of the album, or `none` when the MusicBrainz fallback panicked (which
kills the goroutine, aborting the run). -/

/-- Oracles for one directory entry of the import root. -/
structure AlbumEnv where
  name : String
  isDir : Bool
  scanResult : Except String (List String)
  tagRead : Except String MusicMetadata
  mb : Except String MBResponse
  replayGain : Except String Unit
  cover : Option String
  coverRead : Except String Unit
  trackEmbeds : List (Except String Unit)

/-- Destination directory used by lrc.go `moveToLibrary`. -/
def moveTargetDir (libDir : String) (md : MusicMetadata) : String :=
  libDir ++ "/" ++ sanitize md.artist ++ "/" ++ sanitize md.album

/-- The per-entry body of the loop in lrc.go `RunImporter`. -/
def processAlbum (libDir : String) (a : AlbumEnv) : Option (List Event) :=
  if ¬ a.isDir then some [] else
  match a.scanResult with
  | .error _ => some []
  | .ok tracks =>
    match tracks with
    | [] => some []
    | t0 :: _ =>
      let mdRes := getAlbumMetadata a.tagRead a.mb
      let mdEvents := [Event.beetsTag a.name] ++ (if mdRes.2 then [Event.mbQuery t0] else [])
      match mdRes.1 with
      | none => none
      | some (.error _) => some mdEvents
      | some (.ok md) =>
        let evRG := mdEvents ++ [Event.replayGain a.name]
        match a.replayGain with
        | .error _ => some evRG
        | .ok _ =>
          let evEmbed := evRG ++ [Event.embedArt a.name]
          match (EmbedAlbumArtIntoFolder a.cover a.coverRead a.trackEmbeds).1 with
          | .error _ => some evEmbed
          | .ok _ =>
            let moveEvs := tracks.map (fun t => Event.moveTrack t (moveTargetDir libDir md))
            let coverEvs :=
              match a.cover with
              | some c => [Event.moveCover c (moveTargetDir libDir md)]
              | none => []
            some (evEmbed ++ moveEvs ++ coverEvs ++ [Event.removeDir a.name])

/-- The loop of `RunImporter` over the entries of the import root. -/
def runAlbums (libDir : String) : List AlbumEnv → Option (List Event)
  | [] => some []
  | a :: rest =>
    match processAlbum libDir a with
    | none => none
    | some evs =>
      match runAlbums libDir rest with
      | none => none
      | some evs2 => some (evs ++ evs2)

/-- Oracles for one whole run: the two environment variables (empty string
means unset) and the `os.ReadDir` outcome on the import root. -/
structure ImporterEnv where
  importDir : String
  libraryDir : String
  readDir : Except String (List AlbumEnv)

/-- Embeds lrc.go `RunImporter`: abort on missing configuration or an
unreadable import root, otherwise process every entry. -/
def RunImporter (env : ImporterEnv) : Option (List Event) :=
  if env.importDir = "" ∨ env.libraryDir = "" then some []
  else
    match env.readDir with
    | .error _ => some []
    | .ok entries => runAlbums env.libraryDir entries

/-- The lyrics-step events of a run (empty when the run panicked). -/
def lyricsEvents (o : Option (List Event)) : List Event :=
  match o with
  | none => []
  | some evs => evs.filter Event.isLyrics

/-- The track-move events of an album trace (empty when it panicked). -/
def moveTrackEvents (o : Option (List Event)) : List Event :=
  match o with
  | none => []
  | some evs => evs.filter Event.isMoveTrack

/-! ## Run trigger (lrc.go `handleRun`, `importerRunning`)

The process-wide state is the boolean `importerRunning` guarded by
`importerMu`, plus — for the purposes of the single-flight property — a
count of `RunImporter` executions currently active. `handleRun` reads the
flag under the lock; the source contains no assignment to
`importerRunning` anywhere, so the embedding never writes it. Spawning
the goroutine increments `activeRuns`; the goroutine finishing decrements
it. -/

/-- The shared server state. -/
structure ServerState where
  importerRunning : Bool
  activeRuns : ℕ
deriving DecidableEq, Repr

/-- The HTTP response of the trigger endpoint. -/
inductive TriggerResponse where
  | methodNotAllowed
  | redirectSeeOther
deriving DecidableEq, Repr

/-- Embeds lrc.go `handleRun`: reject non-POST; read `importerRunning`
under the lock; if it is true, redirect without starting anything;
otherwise spawn `RunImporter` (one more active run) and redirect. No
write to `importerRunning` occurs, mirroring the source. -/
def handleRun (method : String) (st : ServerState) : ServerState × TriggerResponse :=
  if method ≠ "POST" then (st, .methodNotAllowed)
  else if st.importerRunning then (st, .redirectSeeOther)
  else ({ st with activeRuns := st.activeRuns + 1 }, .redirectSeeOther)

/-- A spawned `RunImporter` goroutine returning: one fewer active run; the
source clears no flag at completion. -/
def runImporterExit (st : ServerState) : ServerState :=
  { st with activeRuns := st.activeRuns - 1 }

example : plainToLRC "Line1\nLine2" = "[00:00.00] Line1\n[00:00.00] Line2\n" := by decide
example : plainToLRC " Line1" = "[00:00.00] Line1\n" := by decide
example : sanitize "a/b:c?" = "a_b-c" := by decide
example : (TrackDuration (.error "x")).1 = 0 := by rfl
example : (TrackDuration (.ok (617/5))).1 = 123 := by
  show truncTowardZero (617/5 + 1/2) = 123
  unfold truncTowardZero
  norm_num
example : (TrackDuration (.ok (-5))).1 = -4 := by
  show truncTowardZero (-5 + 1/2) = -4
  unfold truncTowardZero
  norm_num [Int.ceil_eq_iff]

/-! ## Supporting lemmas for the sanitizer -/

/-- The replacer distributes over list append. -/
theorem sanitizeChars_append (xs ys : List Char) :
    sanitizeChars (xs ++ ys) = sanitizeChars xs ++ sanitizeChars ys := by
  induction xs with
  | nil => rfl
  | cons c cs ih => simp [sanitizeChars, ih]

/-- A character outside the table is left unchanged. -/
theorem sanitizeChar_default (c : Char) (h1 : ¬c = '/') (h2 : ¬c = '\\')
    (h3 : ¬c = ':') (h4 : ¬c = '?') (h5 : ¬c = '*') (h6 : ¬c = '\"')
    (h7 : ¬c = '<') (h8 : ¬c = '>') (h9 : ¬c = '|') : sanitizeChar c = [c] := by
  unfold sanitizeChar
  simp [h1, h2, h3, h4, h5, h6, h7, h8, h9]

/-- A character outside the table is not unsafe. -/
theorem isUnsafeChar_eq_false (c : Char) (h1 : ¬c = '/') (h2 : ¬c = '\\')
    (h3 : ¬c = ':') (h4 : ¬c = '?') (h5 : ¬c = '*') (h6 : ¬c = '\"')
    (h7 : ¬c = '<') (h8 : ¬c = '>') (h9 : ¬c = '|') : isUnsafeChar c = false := by
  unfold isUnsafeChar
  simp only [Bool.or_eq_false_iff, beq_eq_false_iff_ne, ne_eq]
  exact ⟨⟨⟨⟨⟨⟨⟨⟨h1, h2⟩, h3⟩, h4⟩, h5⟩, h6⟩, h7⟩, h8⟩, h9⟩

/-- Every replacement string of the table is left unchanged by the replacer. -/
theorem sanitizeChars_fixes_sanitizeChar (c : Char) :
    sanitizeChars (sanitizeChar c) = sanitizeChar c := by
  unfold sanitizeChar
  split_ifs with h1 h2 h3 h4 h5 h6 h7 h8 h9
  · decide
  · decide
  · decide
  · decide
  · decide
  · decide
  · decide
  · decide
  · decide
  · simp [sanitizeChars, sanitizeChar_default c h1 h2 h3 h4 h5 h6 h7 h8 h9]

/-- The replacer is idempotent on character lists. -/
theorem sanitizeChars_idem (cs : List Char) :
    sanitizeChars (sanitizeChars cs) = sanitizeChars cs := by
  induction cs with
  | nil => rfl
  | cons c cs ih =>
    show sanitizeChars (sanitizeChar c ++ sanitizeChars cs) = _
    rw [sanitizeChars_append, sanitizeChars_fixes_sanitizeChar, ih]
    rfl

/-- No replacement string of the table contains an unsafe character. -/
theorem sanitizeChar_no_unsafe (c : Char) :
    (sanitizeChar c).filter isUnsafeChar = [] := by
  unfold sanitizeChar
  split_ifs with h1 h2 h3 h4 h5 h6 h7 h8 h9
  · decide
  · decide
  · decide
  · decide
  · decide
  · decide
  · decide
  · decide
  · decide
  · simp [List.filter, isUnsafeChar_eq_false c h1 h2 h3 h4 h5 h6 h7 h8 h9]

/-- The replacer leaves no unsafe character in its output. -/
theorem sanitizeChars_no_unsafe (cs : List Char) :
    (sanitizeChars cs).filter isUnsafeChar = [] := by
  induction cs with
  | nil => rfl
  | cons c cs ih =>
    show (sanitizeChar c ++ sanitizeChars cs).filter isUnsafeChar = []
    rw [List.filter_append, sanitizeChar_no_unsafe, ih]
    rfl

/-- C8: the sanitizer is total (a Lean function on all of `String`),
rewrites each character of the fixed set per the table (underscore,
underscore, hyphen, then removal for the rest), is a homomorphism for
append — so every occurrence is replaced — leaves no character of the set
in its output, and is idempotent. -/
theorem sanitize_table_total_idempotent :
    (sanitize "/" = "_" ∧ sanitize "\\" = "_" ∧ sanitize ":" = "-" ∧
     sanitize "?" = "" ∧ sanitize "*" = "" ∧ sanitize "\"" = "" ∧
     sanitize "<" = "" ∧ sanitize ">" = "" ∧ sanitize "|" = "") ∧
    (∀ s t : String, sanitize (s ++ t) = sanitize s ++ sanitize t) ∧
    (∀ s : String, (sanitize s).data.filter isUnsafeChar = []) ∧
    (∀ s : String, sanitize (sanitize s) = sanitize s) := by
  refine ⟨by decide, fun s t => ?_, fun s => ?_, fun s => ?_⟩
  · show (⟨sanitizeChars (s ++ t).data⟩ : String) = ⟨sanitizeChars s.data ++ sanitizeChars t.data⟩
    rw [show (s ++ t).data = s.data ++ t.data from rfl, sanitizeChars_append]
  · exact sanitizeChars_no_unsafe s.data
  · show (⟨sanitizeChars (sanitizeChars s.data)⟩ : String) = (⟨sanitizeChars s.data⟩ : String)
    rw [sanitizeChars_idem]

/-! ## C5: duration rounding -/

/-- C5 counterexample: the claim that every negative probe value yields an
error is false: `TrackDuration` accepts a parsed negative duration and
returns a value with no error. -/
theorem trackDuration_negative_not_rejected :
    ¬ (∀ q : ℚ, q < 0 → ∃ e, (TrackDuration (Except.ok q)).2 = some e) := by
  intro h
  obtain ⟨e, he⟩ := h (-5) (by norm_num)
  simp [TrackDuration] at he

/-- C5 amended: `TrackDuration` rounds half-up on nonnegative probe values
(123.4 to 123, 123.5 to 124, 0.0 to 0), returns an error exactly on the
ffprobe-failure / empty-output / unparsable paths, and on a parsed
negative value returns `int(q + 0.5)` (truncation toward zero) with no
error, e.g. -5.0 gives -4. -/
theorem trackDuration_rounding :
    (TrackDuration (Except.ok (617/5)) = (123, none)) ∧
    (TrackDuration (Except.ok (247/2)) = (124, none)) ∧
    (TrackDuration (Except.ok 0) = (0, none)) ∧
    (∀ e, TrackDuration (Except.error e) = (0, some e)) ∧
    (∀ q : ℚ, 0 ≤ q → (TrackDuration (Except.ok q)).1 = ⌊q + 1/2⌋) ∧
    (TrackDuration (Except.ok (-5)) = (-4, none)) := by
  refine ⟨?_, ?_, ?_, fun e => rfl, fun q hq => ?_, ?_⟩
  · show (truncTowardZero (617/5 + 1/2), (none : Option String)) = (123, none)
    norm_num [truncTowardZero]
  · show (truncTowardZero (247/2 + 1/2), (none : Option String)) = (124, none)
    norm_num [truncTowardZero]
  · show (truncTowardZero (0 + 1/2), (none : Option String)) = (0, none)
    norm_num [truncTowardZero]
  · show truncTowardZero (q + 1/2) = ⌊q + 1/2⌋
    unfold truncTowardZero
    rw [if_pos (by linarith)]
  · show (truncTowardZero (-5 + 1/2), (none : Option String)) = (-4, none)
    norm_num [truncTowardZero, Int.ceil_eq_iff]

/-- Witness for `trackDuration_rounding` at the concrete value 123.4. -/
theorem trackDuration_rounding_witness :
    (0 : ℚ) ≤ 617/5 ∧ (TrackDuration (Except.ok (617/5))).1 = ⌊(617/5 : ℚ) + 1/2⌋ :=
  ⟨by norm_num, trackDuration_rounding.2.2.2.2.1 (617/5) (by norm_num)⟩

/-! ## C3: metadata resolution fallback, C9: artist-credit indexing -/

/-- C3 counterexample: the resolver also returns the search-provider
result when the embedded-tag read fails with an error, not only when it
yields an empty artist or empty album; the second component of
`getAlbumMetadata` records that the MusicBrainz fallback was queried. -/
theorem getAlbumMetadata_fallback_on_read_error :
    ¬ (∀ (tagRead : Except String MusicMetadata) (mb : Except String MBResponse),
        (getAlbumMetadata tagRead mb).2 = true →
        ∃ md, tagRead = Except.ok md ∧ (md.artist = "" ∨ md.album = "")) := by
  intro h
  obtain ⟨md, hmd, _⟩ := h (Except.error "ffprobe failed") (Except.error "curl failed") rfl
  exact Except.noConfusion hmd

/-- C3 amended: the resolver queries the search provider exactly when the
embedded-tag read fails or yields an empty artist or empty album; a
successful resolution is either the whole tag-read metadata or the whole
MusicBrainz metadata, never a mixture; and a response with no recordings,
or whose first recording has no releases, fails resolution. -/
theorem getAlbumMetadata_fallback_discipline :
    (∀ (tagRead : Except String MusicMetadata) (mb : Except String MBResponse),
        (getAlbumMetadata tagRead mb).2 = true →
        (∃ e, tagRead = Except.error e) ∨
        (∃ md, tagRead = Except.ok md ∧ (md.artist = "" ∨ md.album = ""))) ∧
    (∀ (tagRead : Except String MusicMetadata) (mb : Except String MBResponse)
        (md : MusicMetadata),
        (getAlbumMetadata tagRead mb).1 = some (Except.ok md) →
        tagRead = Except.ok md ∨ mbMetadata mb = some md) ∧
    (∀ data : MBResponse, data.recordings = [] →
        fetchMusicBrainzInfo data = some (Except.error "no MusicBrainz match")) ∧
    (∀ (data : MBResponse) (r : MBRecording) (rs : List MBRecording),
        data.recordings = r :: rs → r.releases = [] →
        fetchMusicBrainzInfo data = some (Except.error "no MusicBrainz match")) := by
  refine ⟨?_, ?_, ?_, ?_⟩
  · intro tagRead mb hq
    match tagRead with
    | .error e => exact Or.inl ⟨e, rfl⟩
    | .ok md =>
      by_cases hc : md.artist ≠ "" ∧ md.album ≠ ""
      · simp [getAlbumMetadata, hc] at hq
      · refine Or.inr ⟨md, rfl, ?_⟩
        rcases not_and_or.mp hc with h | h
        · exact Or.inl (not_not.mp h)
        · exact Or.inr (not_not.mp h)
  · intro tagRead mb md hok
    match tagRead with
    | .ok md0 =>
      by_cases hc : md0.artist ≠ "" ∧ md0.album ≠ ""
      · simp [getAlbumMetadata, hc] at hok
        exact Or.inl (by rw [hok])
      · simp [getAlbumMetadata, hc, mbMetadata] at hok ⊢
        match hmb : fetchMusicBrainzInfoFromCurl mb with
        | none => simp [hmb] at hok
        | some (.error e) => simp [hmb] at hok
        | some (.ok md2) =>
          simp [hmb] at hok ⊢
          exact Or.inr hok
    | .error e0 =>
      simp [getAlbumMetadata, mbMetadata] at hok ⊢
      match hmb : fetchMusicBrainzInfoFromCurl mb with
      | none => simp [hmb] at hok
      | some (.error e) => simp [hmb] at hok
      | some (.ok md2) =>
        simp [hmb] at hok ⊢
        exact hok
  · intro data hrec
    simp [fetchMusicBrainzInfo, hrec]
  · intro data r rs hrec hrel
    simp [fetchMusicBrainzInfo, hrec, hrel]

/-- Witness for `getAlbumMetadata_fallback_discipline`: a failed tag read
with a failed MusicBrainz curl queried the fallback, landing in the
left disjunct. -/
theorem getAlbumMetadata_fallback_discipline_witness :
    (getAlbumMetadata (Except.error "ffprobe failed") (Except.error "curl failed")).2 = true ∧
    ((∃ e, (Except.error "ffprobe failed" : Except String MusicMetadata) = Except.error e) ∨
     (∃ md, (Except.error "ffprobe failed" : Except String MusicMetadata) = Except.ok md ∧
        (md.artist = "" ∨ md.album = ""))) :=
  ⟨rfl, getAlbumMetadata_fallback_discipline.1 (Except.error "ffprobe failed")
    (Except.error "curl failed") rfl⟩

/-- C9: a MusicBrainz response whose first recording has a first release
carrying an empty artist-credit list makes the fallback panic (index out
of range) rather than return a value or an error; the panic escapes
through `getAlbumMetadata`. -/
theorem fetchMusicBrainzInfo_empty_artistCredit_panics :
    fetchMusicBrainzInfo ⟨[⟨"Track", [⟨"Album", []⟩]⟩]⟩ = none ∧
    getAlbumMetadata (Except.error "read failed")
      (Except.ok ⟨[⟨"Track", [⟨"Album", []⟩]⟩]⟩) = (none, true) :=
  ⟨rfl, rfl⟩

/-! ## C7: lyrics response handling; C6: sidecar skip; C10: duration error -/

/-- C7 counterexample: plain lyrics lines are not wrapped verbatim between
the timestamp and the newline: `plainToLRC` trims surrounding whitespace
from each line first, so a line with a leading space refutes the
claimed verbatim wrapping. -/
theorem plainToLRC_not_verbatim :
    ¬ (∀ plain : String, plainToLRC plain =
        ⟨((splitLines plain.data).map
            (fun line => "[00:00.00] ".data ++ line ++ ['\n'])).flatten⟩) := by
  intro h
  exact absurd (h " Line1") (by decide)

/-- C7 amended: a non-empty synced-lyrics field is returned verbatim;
otherwise a non-empty plain-lyrics field is split on newlines and every
line, trimmed of surrounding whitespace, is wrapped between the fixed
zero timestamp and a newline (scenario: plain lyrics of two lines produce
the expected sidecar content); otherwise the fetch fails with the
no-lyrics-found error. -/
theorem fetchLRCLibLyrics_response_handling :
    (∀ r : LRCLibResponse, r.syncedLyrics ≠ "" →
        fetchLRCLibLyrics (Except.ok r) = Except.ok r.syncedLyrics) ∧
    (∀ r : LRCLibResponse, r.syncedLyrics = "" → r.plainLyrics ≠ "" →
        fetchLRCLibLyrics (Except.ok r) = Except.ok (plainToLRC r.plainLyrics)) ∧
    (∀ plain : String, plainToLRC plain =
        ⟨((splitLines plain.data).map
            (fun line => "[00:00.00] ".data ++ trimSpace line ++ ['\n'])).flatten⟩) ∧
    (plainToLRC "Line1\nLine2" = "[00:00.00] Line1\n[00:00.00] Line2\n") ∧
    (fetchLRCLibLyrics (Except.ok ⟨"", ""⟩) = Except.error "no lyrics found") := by
  refine ⟨?_, ?_, fun plain => rfl, by decide, rfl⟩
  · intro r h
    simp [fetchLRCLibLyrics, h]
  · intro r h1 h2
    simp [fetchLRCLibLyrics, h1, h2]

/-- Witness for `fetchLRCLibLyrics_response_handling`: a response with
only plain lyrics falls back to the zero-timestamp wrapping. -/
theorem fetchLRCLibLyrics_response_handling_witness :
    ("" : String) = "" ∧ ("Line1\nLine2" : String) ≠ "" ∧
    fetchLRCLibLyrics (Except.ok ⟨"", "Line1\nLine2"⟩) =
      Except.ok (plainToLRC "Line1\nLine2") :=
  ⟨rfl, by decide,
    fetchLRCLibLyrics_response_handling.2.1 ⟨"", "Line1\nLine2"⟩ rfl (by decide)⟩

/-- C6: when the sidecar .lrc file already exists next to the track, the
per-track lyrics step returns nil immediately: no network query, no
write, and the sidecar content is exactly what it was, for every oracle
environment — so no run overwrites an existing sidecar. -/
theorem downloadTrackLyrics_skips_existing_sidecar :
    ∀ (content : String) (tagRead : Except String MusicMetadata)
      (probe : Except String ℚ) (resp : Except String LRCLibResponse) (writeOk : Bool),
      downloadTrackLyrics (some content) tagRead probe resp writeOk =
        (Except.ok (), [], some content) :=
  fun _ _ _ _ _ => rfl

/-- C10: when the duration probe fails, the per-track lyrics step neither
skips the track nor propagates the probe error: `TrackDuration` returns
the pair (0, error), the error is discarded, and the lyrics provider is
queried with duration 0. -/
theorem downloadTrackLyrics_duration_error_discarded :
    ∀ (e : String) (md : MusicMetadata) (resp : Except String LRCLibResponse)
      (writeOk : Bool),
      md.title ≠ "" → md.artist ≠ "" → md.album ≠ "" →
      TrackDuration (Except.error e) = (0, some e) ∧
      (downloadTrackLyrics none (Except.ok md) (Except.error e) resp writeOk).2.1.head? =
        some (Event.lyricsQuery md.artist md.title md.album 0) := by
  intro e md resp writeOk h1 h2 h3
  refine ⟨rfl, ?_⟩
  have hcond : ¬ (md.title = "" ∨ md.artist = "" ∨ md.album = "") := by
    push_neg
    exact ⟨h1, h2, h3⟩
  simp only [downloadTrackLyrics, hcond, if_false, TrackDuration]
  match hf : fetchLRCLibLyrics resp with
  | .error e2 => simp [hf]
  | .ok lyrics =>
    match writeOk with
    | true => simp [hf]
    | false => simp [hf]

/-- Witness for `downloadTrackLyrics_duration_error_discarded` on a fully
tagged track whose ffprobe call failed. -/
theorem downloadTrackLyrics_duration_error_discarded_witness :
    ("Title" : String) ≠ "" ∧ ("Artist" : String) ≠ "" ∧ ("Album" : String) ≠ "" ∧
    (TrackDuration (Except.error "ffprobe error") = (0, some "ffprobe error") ∧
      (downloadTrackLyrics none (Except.ok ⟨"Artist", "Album", "Title"⟩)
          (Except.error "ffprobe error") (Except.error "status 404") true).2.1.head? =
        some (Event.lyricsQuery "Artist" "Title" "Album" 0)) :=
  ⟨by decide, by decide, by decide,
    downloadTrackLyrics_duration_error_discarded "ffprobe error" ⟨"Artist", "Album", "Title"⟩
      (Except.error "status 404") true (by decide) (by decide) (by decide)⟩

/-! ## Orchestrator trace lemmas -/

/-- Characterization of the traces of `processAlbum`: no album trace
contains a lyrics event, and when cover embedding failed the trace
contains no track move. -/
theorem processAlbum_traces (libDir : String) (a : AlbumEnv) (evs : List Event)
    (h : processAlbum libDir a = some evs) :
    evs.filter Event.isLyrics = [] ∧
    ((EmbedAlbumArtIntoFolder a.cover a.coverRead a.trackEmbeds).1.isOk = false →
      evs.filter Event.isMoveTrack = []) := by
  simp only [processAlbum] at h
  repeat' split at h
  all_goals first
    | exact Option.noConfusion h
    | (injection h with h
       subst h
       refine ⟨?_, fun hemb => ?_⟩ <;>
         simp_all [List.filter_append, List.filter_map, Function.comp,
           Event.isLyrics, Event.isMoveTrack, Except.isOk, Except.toBool, List.filter])

/-! ## C4: cover-embedding failure handling -/

/-- C4 counterexample: an embed failure on one track is not per-track.
With a cover present and two tracks whose first embed fails, only one
embed is attempted — `filepath.Walk` aborts on the first callback error —
so the attempt count differs from the track count. -/
theorem embedAlbumArt_not_per_track :
    ¬ (∀ (c : String) (trackEmbeds : List (Except String Unit)),
        (EmbedAlbumArtIntoFolder (some c) (Except.ok ()) trackEmbeds).2 =
          trackEmbeds.length) := by
  intro h
  have h2 := h "cover.jpg" [Except.error "mp3 save failed", Except.ok ()]
  simp [EmbedAlbumArtIntoFolder, walkEmbed] at h2

/-- C4 amended: the walk attempts embeds up to and including the first
failing track and then aborts, returning that error — later tracks are
not attempted — and the orchestrator treats the returned error as
album-fatal: an album whose cover embedding failed produces no track
moves. -/
theorem embedAlbumArt_first_failure_aborts :
    (∀ (pre post : List (Except String Unit)) (e : String),
        (∀ r ∈ pre, r = Except.ok ()) →
        walkEmbed (pre ++ Except.error e :: post) = (Except.error e, pre.length + 1)) ∧
    (∀ (libDir : String) (a : AlbumEnv),
        (EmbedAlbumArtIntoFolder a.cover a.coverRead a.trackEmbeds).1.isOk = false →
        moveTrackEvents (processAlbum libDir a) = []) := by
  constructor
  · intro pre post e hpre
    induction pre with
    | nil => rfl
    | cons r rest ih =>
      have hr : r = Except.ok () := hpre r (by simp)
      subst hr
      have ih2 := ih (fun x hx => hpre x (by simp [hx]))
      simp [walkEmbed, ih2]
  · intro libDir a hemb
    match hp : processAlbum libDir a with
    | none => rfl
    | some evs =>
      have := (processAlbum_traces libDir a evs hp).2 hemb
      simp [moveTrackEvents, this]

/-- Witness for `embedAlbumArt_first_failure_aborts`: one successful embed
followed by a failing one stops after two attempts. -/
theorem embedAlbumArt_first_failure_aborts_witness :
    (∀ r ∈ [Except.ok ()], r = (Except.ok () : Except String Unit)) ∧
    walkEmbed ([Except.ok ()] ++ Except.error "flac import failed" :: []) =
      (Except.error "flac import failed", 2) :=
  ⟨fun r hr => by simpa using hr,
    embedAlbumArt_first_failure_aborts.1 [Except.ok ()] [] "flac import failed"
      (fun r hr => by simpa using hr)⟩

/-- No trace of the album loop contains a lyrics event. -/
theorem runAlbums_no_lyrics (libDir : String) (l : List AlbumEnv) :
    lyricsEvents (runAlbums libDir l) = [] := by
  induction l with
  | nil => rfl
  | cons a rest ih =>
    unfold runAlbums
    match hp : processAlbum libDir a with
    | none => rfl
    | some evs =>
      match hr : runAlbums libDir rest with
      | none => rfl
      | some evs2 =>
        have h1 := (processAlbum_traces libDir a evs hp).1
        have h2 : evs2.filter Event.isLyrics = [] := by
          simpa [lyricsEvents, hr] using ih
        simp [lyricsEvents, List.filter_append, h1, h2]

/-- C2: no import run started by the orchestrator performs any
lyrics-acquisition step: for every oracle environment, the trace of
`RunImporter` contains no lyrics-provider query and no sidecar write —
`DownloadAlbumLyrics` is never invoked. A sample run that does move a
track still produces a lyrics-free trace. -/
theorem runImporter_never_fetches_lyrics :
    (∀ env : ImporterEnv, lyricsEvents (RunImporter env) = []) ∧
    RunImporter ⟨"imports", "lib",
      Except.ok [⟨"Album1", true, Except.ok ["t1.mp3"], Except.ok ⟨"A", "B", "T"⟩,
        Except.error "unused", Except.ok (), none, Except.ok (), []⟩]⟩ =
      some [Event.beetsTag "Album1", Event.replayGain "Album1", Event.embedArt "Album1",
        Event.moveTrack "t1.mp3" "lib/A/B", Event.removeDir "Album1"] := by
  refine ⟨fun env => ?_, by decide⟩
  unfold RunImporter
  split
  · rfl
  · match hr : env.readDir with
    | .error e => rfl
    | .ok entries => exact runAlbums_no_lyrics env.libraryDir entries

/-! ## C1: the run trigger is not single-flight -/

/-- C1: the single-flight discipline is absent from the code. Starting
from the idle state, a POST to the trigger spawns a run but leaves
`importerRunning` false — no assignment to the flag exists anywhere in
the source — so a second POST while the first run is active also reads
false and spawns a second concurrent run (two active runs), and a
finishing run clears nothing. Had the flag been true, the second request
would indeed have been rejected. -/
theorem handleRun_not_single_flight :
    ((handleRun "POST" ⟨false, 0⟩).1 = ⟨false, 1⟩) ∧
    ((handleRun "POST" (handleRun "POST" ⟨false, 0⟩).1).1 = ⟨false, 2⟩) ∧
    (runImporterExit (handleRun "POST" ⟨false, 0⟩).1 = ⟨false, 0⟩) ∧
    ((handleRun "POST" ⟨true, 1⟩).1 = ⟨true, 1⟩) ∧
    ((handleRun "GET" ⟨false, 0⟩) = (⟨false, 0⟩, TriggerResponse.methodNotAllowed)) := by
  decide
